import Mathlib

/-!
Verification of the PAU Vox feedback core: a shallow embedding of the
Classifier (profanity gate, priority detection), the similarity advisory,
the notification read-state operations, the client feedback operations,
and — modelled from the specification where the FastAPI backend sources are
not part of the codebase snapshot — the Workflow Engine, Assignment Router
and Analytics Aggregator.  Theorems settle the frozen specification claims.
-/

namespace PAUVox

/-! ## Text model

Strings are embedded as Lean `String`s; JavaScript `toLowerCase`,
`includes` (substring test) and `split(' ')` are modelled as below.
`jsToLower` maps every character through `Char.toLower`, which agrees with
`String.prototype.toLowerCase` on the ASCII text appearing in the sources.
-/

/-- JavaScript `text.toLowerCase()` (ASCII-faithful). -/
def jsToLower (s : String) : String := String.mk (s.data.map Char.toLower)

/-- JavaScript `s.includes(pat)`: `pat` occurs in `s` as a contiguous substring. -/
def jsIncludes (s pat : String) : Bool := decide (pat.data <:+: s.data)

/-- JavaScript `s.split(' ')`: split on each single space character,
keeping empty segments, as `String.prototype.split` does. -/
def jsSplitSpace (s : String) : List String := (s.data.splitOn ' ').map String.mk

theorem jsIncludes_iff (s pat : String) : jsIncludes s pat = true ↔ pat.data <:+: s.data := by
  simp [jsIncludes]

/-! ## Classifier (src/contexts/FeedbackContext.tsx) -/

/-- The fixed profanity blocklist of `FeedbackContext.tsx`. -/
def profanityList : List String := ["damn", "hell", "stupid", "idiot", "fool", "crap", "suck"]

/-- `checkProfanity(text)`: case-insensitive substring match against the blocklist. -/
def checkProfanity (text : String) : Bool :=
  profanityList.any (fun word => jsIncludes (jsToLower text) word)

inductive FeedbackPriority
  | low
  | medium
  | high
  | urgent
deriving DecidableEq, Repr

inductive FeedbackStatus
  | pending
  | in_review
  | assigned
  | working
  | resolved
  | rejected
deriving DecidableEq, Repr

inductive FeedbackType
  | academic
  | non_academic
deriving DecidableEq, Repr

/-- The urgent-tier keyword list of `detectPriority`. -/
def urgentKeywords : List String := ["urgent", "emergency", "danger", "fire", "flood", "immediate"]

/-- The high-tier keyword list of `detectPriority`. -/
def highKeywords : List String := ["broken", "not working", "severe", "serious", "critical"]

/-- `detectPriority(description)`: urgent tier first, then high tier, else `medium`. -/
def detectPriority (description : String) : FeedbackPriority :=
  let lowerDesc := jsToLower description
  if urgentKeywords.any (fun keyword => jsIncludes lowerDesc keyword) then
    .urgent
  else if highKeywords.any (fun keyword => jsIncludes lowerDesc keyword) then
    .high
  else
    .medium

/-- The lowercased text contains some keyword of the list as a substring. -/
def ContainsKeyword (keywords : List String) (text : String) : Prop :=
  ∃ k ∈ keywords, k.data <:+: (jsToLower text).data

instance (keywords : List String) (text : String) : Decidable (ContainsKeyword keywords text) := by
  unfold ContainsKeyword
  infer_instance

theorem containsKeyword_iff_any (keywords : List String) (text : String) :
    ContainsKeyword keywords text ↔
      keywords.any (fun keyword => jsIncludes (jsToLower text) keyword) = true := by
  simp [ContainsKeyword, List.any_eq_true, jsIncludes]

/-! ## Data model (src/contexts/FeedbackContext.tsx)

Timestamps (`Date` in the source) are embedded as epoch milliseconds (`Nat`).
Optional fields of the TypeScript interfaces become `Option`s.
-/

structure InternalNote where
  id : String
  text : String
  author : String
  createdAt : Nat
deriving DecidableEq, Repr

structure StatusHistoryEntry where
  id : String
  status : FeedbackStatus
  timestamp : Nat
  updatedBy : String
  note : Option String
deriving DecidableEq, Repr

structure Feedback where
  id : String
  type : FeedbackType
  category : String
  subject : String
  description : String
  status : FeedbackStatus
  priority : FeedbackPriority
  isAnonymous : Bool
  studentId : String
  studentName : Option String := none
  createdAt : Nat
  updatedAt : Nat
  assignedTo : Option String := none
  assignedBy : Option String := none
  assignedAt : Option Nat := none
  dueAt : Option Nat := none
  department : Option String := none
  resolutionSummary : Option String := none
  attachments : List String := []
  internalNotes : List InternalNote := []
  statusHistory : List StatusHistoryEntry := []
  similarityGroup : Option String := none
deriving DecidableEq, Repr

/-- A submission draft: `Omit<Feedback, 'id' | 'status' | 'priority' | 'createdAt' | 'updatedAt'>`. -/
structure Draft where
  type : FeedbackType
  category : String
  subject : String
  description : String
  isAnonymous : Bool
  studentId : String
  studentName : Option String := none
  assignedTo : Option String := none
  department : Option String := none
  resolutionSummary : Option String := none
  attachments : List String := []
  internalNotes : List InternalNote := []
  statusHistory : List StatusHistoryEntry := []
  similarityGroup : Option String := none
deriving DecidableEq, Repr

/-! ## Client feedback operations (src/contexts/FeedbackContext.tsx)

The provider keeps a list of `Feedback` records; each operation is a pure
state transformer on that list.  Identifier and clock inputs
(`Date.now()`) are passed explicitly.
-/

/-- `submitFeedback`: rejects profane drafts, otherwise classifies the
priority and appends a fresh `pending` record. -/
def submitFeedback (feedbacks : List Feedback) (draft : Draft) (newId : String)
    (now : Nat) : Except String (List Feedback) :=
  if checkProfanity draft.description || checkProfanity draft.subject then
    .error "Your feedback contains inappropriate language. Please revise and resubmit."
  else
    let priority := detectPriority draft.description
    .ok (feedbacks ++ [{
      id := newId
      type := draft.type
      category := draft.category
      subject := draft.subject
      description := draft.description
      status := .pending
      priority := priority
      isAnonymous := draft.isAnonymous
      studentId := draft.studentId
      studentName := draft.studentName
      createdAt := now
      updatedAt := now
      assignedTo := draft.assignedTo
      department := draft.department
      resolutionSummary := draft.resolutionSummary
      attachments := draft.attachments
      internalNotes := []
      statusHistory := draft.statusHistory
      similarityGroup := draft.similarityGroup }])

/-- `updateFeedbackStatus(id, status)` of the client context: overwrite the
status and `updatedAt` of the matching record. -/
def updateFeedbackStatus (feedbacks : List Feedback) (id : String)
    (status : FeedbackStatus) (now : Nat) : List Feedback :=
  feedbacks.map (fun f => if f.id = id then { f with status := status, updatedAt := now } else f)

/-- `addInternalNote(feedbackId, note, author)`: append one internal note to
the matching record. -/
def addInternalNote (feedbacks : List Feedback) (feedbackId : String)
    (note : String) (author : String) (noteId : String) (now : Nat) : List Feedback :=
  feedbacks.map (fun f =>
    if f.id = feedbackId then
      { f with
          internalNotes := f.internalNotes ++ [{ id := noteId, text := note, author := author, createdAt := now }]
          updatedAt := now }
    else f)

/-! ## Notifications (src/contexts/NotificationContext.tsx) -/

inductive NotificationKind
  | info
  | success
  | warning
  | error
deriving DecidableEq, Repr

structure Notification where
  id : String
  title : String
  message : String
  kind : NotificationKind
  read : Bool
  createdAt : Nat
  feedbackId : Option String := none
deriving DecidableEq, Repr

/-- `markAllAsRead`: set `read := true` on every notification of the list
(the provider state holds exactly the signed-in user's notifications). -/
def markAllAsRead (notifications : List Notification) : List Notification :=
  notifications.map (fun n => { n with read := true })

/-- `markAsRead(id)`: set `read := true` on the matching notification. -/
def markAsRead (notifications : List Notification) (id : String) : List Notification :=
  notifications.map (fun n => if n.id = id then { n with read := true } else n)

/-- `unreadCount`: live count of the `read = false` records. -/
def unreadCount (notifications : List Notification) : Nat :=
  (notifications.filter (fun n => !n.read)).length

/-! ## Similarity advisory (src/components/feedback/SimilarityDetector.tsx)

The component recomputes, from the draft under edit and the current record
list, the advisory list of similar existing records.  It is a pure
function of its inputs and never writes a record.
-/

/-- The draft keyword list: lowercase tokens of the description followed by
the subject, split on single spaces, keeping words of length greater than 3
and then the first 10 of them. -/
def similarityKeywords (description subject : String) : List String :=
  ((jsSplitSpace (jsToLower description) ++ jsSplitSpace (jsToLower subject)).filter
    (fun word => decide (3 < word.length))).take 10

/-- The searchable text of an existing record. -/
def feedbackText (f : Feedback) : String :=
  jsToLower (f.subject ++ " " ++ f.description)

/-- Number of draft keywords occurring in the record's text. -/
def matchCount (keywords : List String) (f : Feedback) : Nat :=
  (keywords.filter (fun keyword => jsIncludes (feedbackText f) keyword)).length

/-- The records of the draft's type and category paired with their keyword
match score, keeping those scoring at least 2. -/
def scoredCandidates (allFeedbacks : List Feedback) (description subject category : String)
    (t : FeedbackType) : List (Feedback × Nat) :=
  ((allFeedbacks.filter (fun f => f.type = t ∧ f.category = category)).map
    (fun f => (f, matchCount (similarityKeywords description subject) f))).filter
    (fun item => 2 ≤ item.2)

/-- The advisory list: empty for short drafts, otherwise the scored
candidates sorted by descending score, truncated to the first 3, with the
scores dropped. -/
def similarIssues (allFeedbacks : List Feedback) (description subject category : String)
    (t : FeedbackType) : List Feedback :=
  if description.length < 20 ∧ subject.length < 10 then []
  else
    (((scoredCandidates allFeedbacks description subject category t).insertionSort
      (fun a b => b.2 ≤ a.2)).take 3).map Prod.fst

/-! ## Workflow Engine and Assignment Router (modelled from the spec)

The FastAPI backend implementing `PATCH /feedback/{id}/status` and
`POST /feedback/{id}/assign` is not part of this source snapshot (only its
README and its frontend callers in `FeedbackContext` are), so the engine is
modelled from the specification, sections 4.2 and 4.3.
-/

inductive WorkflowError
  | invalidState
  | validation
  | notFound
deriving DecidableEq, Repr

/-- Terminal statuses of the state machine: `resolved` and `rejected`. -/
def isTerminal (s : FeedbackStatus) : Bool :=
  s = FeedbackStatus.resolved ∨ s = FeedbackStatus.rejected

/-- Modelled from the spec: the legal transitions of section 4.2 —
`pending → in_review`, `pending → assigned`, `in_review → assigned`,
`assigned → working`, `working → resolved`, and any non-terminal state
`→ rejected`; terminal states have no outgoing transition. -/
def legalTransition : FeedbackStatus → FeedbackStatus → Bool
  | .pending, .in_review => true
  | .pending, .assigned => true
  | .in_review, .assigned => true
  | .assigned, .working => true
  | .working, .resolved => true
  | .pending, .rejected => true
  | .in_review, .rejected => true
  | .assigned, .rejected => true
  | .working, .rejected => true
  | _, _ => false

/-- Modelled from the spec: the backend `updateStatus(id, newStatus,
resolutionSummary?)` (section 4.2, absent from the snapshot).  It validates
that the transition is legal from the current status (terminal states have
no legal outgoing transition, hence `InvalidStateError`); requires a
`resolutionSummary` when resolving (`ValidationError` otherwise); appends
exactly one `StatusHistoryEntry`; returns the updated record.  An `error`
result leaves the stored record exactly as it was. -/
def updateStatus (f : Feedback) (newStatus : FeedbackStatus)
    (resolutionSummary : Option String) (updatedBy : String) (note : Option String)
    (entryId : String) (now : Nat) : Except WorkflowError Feedback :=
  if ¬ legalTransition f.status newStatus then
    .error .invalidState
  else if newStatus = .resolved ∧ resolutionSummary = none then
    .error .validation
  else
    .ok { f with
      status := newStatus
      resolutionSummary :=
        if newStatus = .resolved then resolutionSummary else f.resolutionSummary
      statusHistory := f.statusHistory ++
        [{ id := entryId, status := newStatus, timestamp := now,
           updatedBy := updatedBy, note := note }]
      updatedAt := now }

/-- Modelled from the spec: the backend `assign(feedbackId, assigneeId,
assignerId, dueAt?)` (section 4.3, absent from the snapshot).  It fails with
`InvalidStateError` on a terminal record; otherwise sets the assignment
fields, forces the status to `assigned`, and appends exactly one history
entry noting the assignee. -/
def assign (f : Feedback) (assigneeId assignerId : String) (dueAt : Option Nat)
    (entryId : String) (now : Nat) : Except WorkflowError Feedback :=
  if isTerminal f.status then
    .error .invalidState
  else
    .ok { f with
      status := .assigned
      assignedTo := some assigneeId
      assignedBy := some assignerId
      assignedAt := some now
      dueAt := dueAt
      statusHistory := f.statusHistory ++
        [{ id := entryId, status := .assigned, timestamp := now,
           updatedBy := assignerId, note := some ("Assigned to " ++ assigneeId) }]
      updatedAt := now }

/-- Modelled from the spec: the backend `addNote(id, text, authorId)`
(section 6, absent from the snapshot): appends one internal note and leaves
the status history untouched. -/
def engineAddNote (f : Feedback) (text authorId noteId : String) (now : Nat) : Feedback :=
  { f with
    internalNotes := f.internalNotes ++
      [{ id := noteId, text := text, author := authorId, createdAt := now }]
    updatedAt := now }

/-- One successful engine mutation of a single record: a status update, an
assignment, or a note addition. -/
def EngineStep (f f2 : Feedback) : Prop :=
  (∃ newStatus resolutionSummary updatedBy note entryId now,
      updateStatus f newStatus resolutionSummary updatedBy note entryId now = .ok f2) ∨
  (∃ assigneeId assignerId dueAt entryId now,
      assign f assigneeId assignerId dueAt entryId now = .ok f2) ∨
  (∃ text authorId noteId now, engineAddNote f text authorId noteId now = f2)

/-- A record's lifetime under the engine: any finite chain of engine steps. -/
def EngineReaches (f f2 : Feedback) : Prop :=
  Relation.ReflTransGen EngineStep f f2

/-! ## Analytics Aggregator (modelled from the spec)

The backend `GET /analytics` computation is not part of the snapshot (only
the `AnalyticsPayload` type consumed by `AnalyticsPage.tsx` is), so the
resolution statistics are modelled from the specification, section 4.6.
Record timestamps are epoch milliseconds embedded as rationals.
-/

/-- The `resolution` block of `AnalyticsPayload`. -/
structure ResolutionStats where
  average_resolution_hours : ℚ
  resolved_count : Nat
deriving DecidableEq, Repr

/-- Modelled from the spec: the slice of a stored record that the
resolution statistics read — current status, creation and resolution
timestamps (epoch milliseconds). -/
structure AnalyticsRecord where
  status : FeedbackStatus
  createdAt : ℚ
  resolvedAt : ℚ
deriving DecidableEq, Repr

/-- Resolution duration of one record, in hours. -/
def resolutionHours (r : AnalyticsRecord) : ℚ :=
  (r.resolvedAt - r.createdAt) / 3600000

/-- Modelled from the spec: `computeAnalytics(...).resolution` (section 4.6,
absent from the snapshot): one pass over the filtered record set
accumulating the count of currently-`resolved` records and their total
resolution time; the average is total over count (0 when none resolved). -/
def computeResolution (records : List AnalyticsRecord) : ResolutionStats :=
  let acc := records.foldl
    (fun (p : ℚ × Nat) r =>
      if r.status = FeedbackStatus.resolved then (p.1 + resolutionHours r, p.2 + 1) else p)
    (0, 0)
  { resolved_count := acc.2
    average_resolution_hours := if acc.2 = 0 then 0 else acc.1 / (acc.2 : ℚ) }

/-! ## Concrete records used by witnesses and counterexamples -/

/-- A pending academic record. -/
def fbPendingEx : Feedback :=
  { id := "f1", type := .academic, category := "Course Content", subject := "Class pace",
    description := "The pace is too fast", status := .pending, priority := .medium,
    isAnonymous := false, studentId := "s1", createdAt := 0, updatedAt := 0 }

/-- The pending record after the engine moved it to `in_review`. -/
def fbInReviewEx : Feedback :=
  { fbPendingEx with
    status := .in_review
    statusHistory := [{ id := "h1", status := .in_review, timestamp := 5,
                        updatedBy := "staff1", note := none }]
    updatedAt := 5 }

/-- An assigned record. -/
def fbAssignedEx : Feedback :=
  { id := "a1", type := .non_academic, category := "Hostel", subject := "No AC in Block B",
    description := "The AC has not cooled for days", status := .assigned, priority := .high,
    isAnonymous := true, studentId := "s2", createdAt := 0, updatedAt := 2,
    assignedTo := some "facilities_management" }

/-- A record in status `working`. -/
def fbWorkingEx : Feedback :=
  { fbAssignedEx with id := "w1", status := .working }

/-- A resolved (terminal) record. -/
def fbResolvedEx : Feedback :=
  { fbPendingEx with
    id := "t1"
    status := .resolved
    resolutionSummary := some "Pace adjusted"
    assignedTo := some "staff9" }

/-- A profanity-free draft. -/
def cleanDraftEx : Draft :=
  { type := .academic, category := "Course Content", subject := "Class pace",
    description := "The pace is too fast", isAnonymous := false, studentId := "s1" }

/-- An existing record sharing the keywords `campus` and `wifi` with short
drafts about the campus network. -/
def wifiRecordEx : Feedback :=
  { id := "r1", type := .academic, category := "Internet", subject := "campus wifi down",
    description := "campus wifi keeps dropping daily", status := .pending,
    priority := .medium, isAnonymous := false, studentId := "s3",
    createdAt := 0, updatedAt := 0 }

/-! ## Theorems -/

theorem checkProfanity_iff (text : String) :
    checkProfanity text = true ↔ ContainsKeyword profanityList text := by
  rw [containsKeyword_iff_any]
  rfl

/-- C3: `detectPriority` returns `urgent` iff the lowercased description
contains an urgent-tier keyword; `high` iff it contains no urgent-tier
keyword but some high-tier keyword; and `medium` when it contains neither.
In particular a description with both an urgent and a high keyword yields
`urgent`. -/
theorem detectPriority_tier_order (d : String) :
    (detectPriority d = .urgent ↔ ContainsKeyword urgentKeywords d) ∧
    (detectPriority d = .high ↔
      (¬ ContainsKeyword urgentKeywords d ∧ ContainsKeyword highKeywords d)) ∧
    (¬ ContainsKeyword urgentKeywords d → ¬ ContainsKeyword highKeywords d →
      detectPriority d = .medium) := by
  by_cases cu : ContainsKeyword urgentKeywords d
  · have hu := (containsKeyword_iff_any urgentKeywords d).mp cu
    refine ⟨by simp [detectPriority, hu, cu], by simp [detectPriority, hu, cu], ?_⟩
    intro h
    exact absurd cu h
  · have hu : urgentKeywords.any (fun keyword => jsIncludes (jsToLower d) keyword) = false := by
      by_contra h
      exact cu ((containsKeyword_iff_any urgentKeywords d).mpr (by
        revert h
        cases urgentKeywords.any (fun keyword => jsIncludes (jsToLower d) keyword) <;> simp))
    by_cases ch : ContainsKeyword highKeywords d
    · have hh := (containsKeyword_iff_any highKeywords d).mp ch
      exact ⟨by simp [detectPriority, hu, hh, cu], by simp [detectPriority, hu, hh, cu, ch],
        fun _ h2 => absurd ch h2⟩
    · have hh : highKeywords.any (fun keyword => jsIncludes (jsToLower d) keyword) = false := by
        by_contra h
        exact ch ((containsKeyword_iff_any highKeywords d).mpr (by
          revert h
          cases highKeywords.any (fun keyword => jsIncludes (jsToLower d) keyword) <;> simp))
      exact ⟨by simp [detectPriority, hu, hh, cu], by simp [detectPriority, hu, hh, cu, ch],
        fun _ _ => by simp [detectPriority, hu, hh]⟩

/-- Witness for C3 at concrete descriptions: a description containing the
urgent keyword `fire` and the high keyword `broken` classifies as `urgent`,
one with only `broken` as `high`, and a neutral one as `medium`. -/
theorem detectPriority_tier_order_witness :
    detectPriority "the fire alarm is broken" = .urgent ∧
    detectPriority "the projector is broken" = .high ∧
    detectPriority "all is well" = .medium :=
  ⟨(detectPriority_tier_order "the fire alarm is broken").1.mpr (by decide),
   (detectPriority_tier_order "the projector is broken").2.1.mpr ⟨by decide, by decide⟩,
   (detectPriority_tier_order "all is well").2.2 (by decide) (by decide)⟩

/-- C6: after `markAllAsRead` every notification of the user is read, so
the live unread count is 0, and a second `markAllAsRead` produces exactly
the same state (idempotence). -/
theorem markAllAsRead_clears_unread_and_idempotent (notifications : List Notification) :
    unreadCount (markAllAsRead notifications) = 0 ∧
    markAllAsRead (markAllAsRead notifications) = markAllAsRead notifications := by
  constructor
  · induction notifications with
    | nil => rfl
    | cons n t ih => simp [markAllAsRead, unreadCount, List.filter] at ih ⊢
  · induction notifications with
    | nil => rfl
    | cons n t ih => simp [markAllAsRead] at ih ⊢

/-- C7: a draft whose subject or description contains a blocklist word as a
case-insensitive substring is rejected by `submitFeedback` with the
validation error, so no record is created and the record set is unchanged;
in particular `checkProfanity "DAMN this is broken"` is `true`. -/
theorem submitFeedback_rejects_profanity (feedbacks : List Feedback) (draft : Draft)
    (newId : String) (now : Nat)
    (h : ContainsKeyword profanityList draft.subject ∨
         ContainsKeyword profanityList draft.description) :
    submitFeedback feedbacks draft newId now =
      .error "Your feedback contains inappropriate language. Please revise and resubmit." ∧
    checkProfanity "DAMN this is broken" = true := by
  refine ⟨?_, by decide⟩
  rcases h with h | h
  · have hs : checkProfanity draft.subject = true := (checkProfanity_iff draft.subject).mpr h
    simp [submitFeedback, hs]
  · have hd : checkProfanity draft.description = true := (checkProfanity_iff draft.description).mpr h
    simp [submitFeedback, hd]

/-- Witness for C7: the concrete draft with description
`DAMN this is broken` is rejected. -/
theorem submitFeedback_rejects_profanity_witness :
    submitFeedback []
      { type := .academic, category := "Course Content", subject := "Audio issues",
        description := "DAMN this is broken", isAnonymous := false, studentId := "s1" }
      "42" 1000 =
      .error "Your feedback contains inappropriate language. Please revise and resubmit." :=
  (submitFeedback_rejects_profanity []
    { type := .academic, category := "Course Content", subject := "Audio issues",
      description := "DAMN this is broken", isAnonymous := false, studentId := "s1" }
    "42" 1000 (Or.inr (by decide))).1

/-- C9: outside an assignment transition no client operation touches
`assignedTo`, and after creation no client operation other than an explicit
escalation touches `priority`: `updateFeedbackStatus` and `addInternalNote`
preserve both fields on every stored record, and a successful
`submitFeedback` only appends one fresh record whose priority the
Classifier computed, leaving every existing record untouched. -/
theorem assignedTo_priority_stable (feedbacks : List Feedback) (id : String)
    (status : FeedbackStatus) (noteText author noteId newId : String) (draft : Draft)
    (now : Nat) :
    ((updateFeedbackStatus feedbacks id status now).map (fun f => (f.id, f.assignedTo, f.priority)) =
      feedbacks.map (fun f => (f.id, f.assignedTo, f.priority))) ∧
    ((addInternalNote feedbacks id noteText author noteId now).map (fun f => (f.id, f.assignedTo, f.priority)) =
      feedbacks.map (fun f => (f.id, f.assignedTo, f.priority))) ∧
    (∀ result, submitFeedback feedbacks draft newId now = .ok result →
      ∃ created, result = feedbacks ++ [created] ∧
        created.priority = detectPriority draft.description ∧
        created.status = .pending ∧ created.assignedTo = draft.assignedTo) := by
  refine ⟨?_, ?_, ?_⟩
  · rw [updateFeedbackStatus, List.map_map]
    apply List.map_congr_left
    intro f _
    by_cases hf : f.id = id <;> simp [hf]
  · rw [addInternalNote, List.map_map]
    apply List.map_congr_left
    intro f _
    by_cases hf : f.id = id <;> simp [hf]
  · intro result hres
    by_cases hprof : (checkProfanity draft.description || checkProfanity draft.subject) = true
    · simp [submitFeedback, hprof] at hres
    · simp [submitFeedback, hprof] at hres
      exact ⟨_, hres.symm, rfl, rfl, rfl⟩

/-- The record set produced by submitting the clean draft on top of the
assigned record. -/
def submitCleanResultEx : List Feedback :=
  [fbAssignedEx] ++ [{
    id := "77", type := .academic, category := "Course Content", subject := "Class pace",
    description := "The pace is too fast", status := .pending, priority := .medium,
    isAnonymous := false, studentId := "s1", createdAt := 9, updatedAt := 9 }]

/-- Witness for C9 at a concrete store: updating the status of a record and
adding a note to it leave its `assignedTo` and `priority` projections
unchanged, and a clean submission appends a `pending`, `medium` record. -/
theorem assignedTo_priority_stable_witness :
    ((updateFeedbackStatus [fbAssignedEx] "a1" .working 9).map (fun f => (f.id, f.assignedTo, f.priority)) =
      [fbAssignedEx].map (fun f => (f.id, f.assignedTo, f.priority))) ∧
    ((addInternalNote [fbAssignedEx] "a1" "checking" "staff1" "n1" 9).map (fun f => (f.id, f.assignedTo, f.priority)) =
      [fbAssignedEx].map (fun f => (f.id, f.assignedTo, f.priority))) ∧
    (∃ created, submitCleanResultEx = [fbAssignedEx] ++ [created] ∧
      created.priority = detectPriority cleanDraftEx.description ∧
      created.status = .pending ∧ created.assignedTo = cleanDraftEx.assignedTo) :=
  ⟨(assignedTo_priority_stable [fbAssignedEx] "a1" .working "checking" "staff1" "n1" "77"
      cleanDraftEx 9).1,
   (assignedTo_priority_stable [fbAssignedEx] "a1" .working "checking" "staff1" "n1" "77"
      cleanDraftEx 9).2.1,
   (assignedTo_priority_stable [fbAssignedEx] "a1" .working "checking" "staff1" "n1" "77"
      cleanDraftEx 9).2.2 submitCleanResultEx rfl⟩

/-- C10: a draft whose description is shorter than 20 characters and whose
subject is shorter than 10 characters gets an empty similarity advisory,
whatever the existing records are. -/
theorem similarIssues_short_draft_empty (allFeedbacks : List Feedback)
    (description subject category : String) (t : FeedbackType)
    (hd : description.length < 20) (hs : subject.length < 10) :
    similarIssues allFeedbacks description subject category t = [] := by
  simp [similarIssues, hd, hs]

/-- Witness for C10: a short draft sharing two keywords with an existing
record of the same type and category still gets an empty advisory. -/
theorem similarIssues_short_draft_empty_witness :
    similarIssues [wifiRecordEx] "campus wifi" "" "Internet" .academic = [] :=
  similarIssues_short_draft_empty [wifiRecordEx] "campus wifi" "" "Internet" .academic
    (by decide) (by decide)

theorem legalTransition_terminal_false (s newStatus : FeedbackStatus)
    (h : s = .resolved ∨ s = .rejected) : legalTransition s newStatus = false := by
  rcases h with h | h <;> subst h <;> cases newStatus <;> rfl

/-- C1: on a record whose status is `resolved` or `rejected` every status
change attempt and every assignment attempt fails with `InvalidStateError`;
the `error` result carries no updated record, so the stored record — in
particular its `status` and `assignedTo` — keeps its prior value. -/
theorem terminal_record_rejects_mutation (f : Feedback)
    (h : f.status = .resolved ∨ f.status = .rejected) :
    (∀ newStatus resolutionSummary updatedBy note entryId now,
      updateStatus f newStatus resolutionSummary updatedBy note entryId now =
        .error .invalidState) ∧
    (∀ assigneeId assignerId dueAt entryId now,
      assign f assigneeId assignerId dueAt entryId now = .error .invalidState) := by
  constructor
  · intro newStatus resolutionSummary updatedBy note entryId now
    simp [updateStatus, legalTransition_terminal_false f.status newStatus h]
  · intro assigneeId assignerId dueAt entryId now
    have ht : isTerminal f.status = true := by
      rcases h with h | h <;> simp [isTerminal, h]
    simp [assign, ht]

/-- Witness for C1: the concrete resolved record rejects both a move back
to `in_review` and an assignment. -/
theorem terminal_record_rejects_mutation_witness :
    (updateStatus fbResolvedEx .in_review none "staff1" none "h2" 9 =
      .error .invalidState) ∧
    (assign fbResolvedEx "staff2" "manager1" none "h3" 9 = .error .invalidState) :=
  ⟨(terminal_record_rejects_mutation fbResolvedEx (Or.inl rfl)).1 .in_review none
      "staff1" none "h2" 9,
   (terminal_record_rejects_mutation fbResolvedEx (Or.inl rfl)).2 "staff2" "manager1"
      none "h3" 9⟩

theorem engineStep_history_length_mono (f f2 : Feedback) (h : EngineStep f f2) :
    f.statusHistory.length ≤ f2.statusHistory.length := by
  rcases h with ⟨ns, rs, ub, nt, eid, now, h⟩ | ⟨aid, bid, d, eid, now, h⟩ | ⟨tx, au, nid, now, h⟩
  · rw [updateStatus] at h
    split at h
    · exact absurd h (by simp)
    · split at h
      · exact absurd h (by simp)
      · cases h
        simp
  · rw [assign] at h
    split at h
    · exact absurd h (by simp)
    · cases h
      simp
  · cases h
    rfl

/-- C2: a successful engine status update appends exactly the one new
history entry it creates, a successful assignment appends exactly one
entry, and along any chain of engine operations (status updates,
assignments, note additions) the status history length never decreases. -/
theorem engine_appends_one_history_entry (f f2 : Feedback) :
    (∀ newStatus resolutionSummary updatedBy note entryId now,
      updateStatus f newStatus resolutionSummary updatedBy note entryId now = .ok f2 →
      f2.statusHistory = f.statusHistory ++
        [{ id := entryId, status := newStatus, timestamp := now,
           updatedBy := updatedBy, note := note }]) ∧
    (∀ assigneeId assignerId dueAt entryId now,
      assign f assigneeId assignerId dueAt entryId now = .ok f2 →
      f2.statusHistory = f.statusHistory ++
        [{ id := entryId, status := .assigned, timestamp := now,
           updatedBy := assignerId, note := some ("Assigned to " ++ assigneeId) }]) ∧
    (EngineReaches f f2 → f.statusHistory.length ≤ f2.statusHistory.length) := by
  refine ⟨?_, ?_, ?_⟩
  · intro newStatus resolutionSummary updatedBy note entryId now h
    rw [updateStatus] at h
    split at h
    · exact absurd h (by simp)
    · split at h
      · exact absurd h (by simp)
      · cases h
        rfl
  · intro assigneeId assignerId dueAt entryId now h
    rw [assign] at h
    split at h
    · exact absurd h (by simp)
    · cases h
      rfl
  · intro h
    induction h with
    | refl => exact Nat.le_refl _
    | tail _ step ih => exact Nat.le_trans ih (engineStep_history_length_mono _ _ step)

/-- Witness for C2: moving the concrete pending record to `in_review`
appends exactly its one new history entry. -/
theorem engine_appends_one_history_entry_witness :
    fbInReviewEx.statusHistory = fbPendingEx.statusHistory ++
      [{ id := "h1", status := .in_review, timestamp := 5,
         updatedBy := "staff1", note := none }] :=
  (engine_appends_one_history_entry fbPendingEx fbInReviewEx).1 .in_review none
    "staff1" none "h1" 5 rfl

/-- C5: resolving a record in the (unique) resolvable state `working`
without a `resolutionSummary` fails with `ValidationError` — the `error`
result leaving the stored record unchanged — while resolving with a summary
succeeds, sets the status to `resolved` and stores the summary. -/
theorem resolve_requires_summary (f : Feedback) (h : f.status = .working)
    (updatedBy : String) (note : Option String) (entryId : String) (now : Nat) :
    (updateStatus f .resolved none updatedBy note entryId now = .error .validation) ∧
    (∀ summary, ∃ f2,
      updateStatus f .resolved (some summary) updatedBy note entryId now = .ok f2 ∧
      f2.status = .resolved ∧ f2.resolutionSummary = some summary) := by
  have hleg : legalTransition f.status .resolved = true := by
    simp [h, legalTransition]
  constructor
  · simp [updateStatus, hleg]
  · intro summary
    have hres : updateStatus f .resolved (some summary) updatedBy note entryId now =
        .ok { f with
          status := .resolved
          resolutionSummary := some summary
          statusHistory := f.statusHistory ++
            [{ id := entryId, status := .resolved, timestamp := now,
               updatedBy := updatedBy, note := note }]
          updatedAt := now } := by
      simp [updateStatus, hleg]
    exact ⟨_, hres, rfl, rfl⟩

/-- Witness for C5: the concrete `working` record rejects a summary-less
resolve and accepts one carrying the summary `Unit replaced`. -/
theorem resolve_requires_summary_witness :
    (updateStatus fbWorkingEx .resolved none "staff1" none "h4" 9 = .error .validation) ∧
    (∃ f2,
      updateStatus fbWorkingEx .resolved (some "Unit replaced") "staff1" none "h4" 9 = .ok f2 ∧
      f2.status = .resolved ∧ f2.resolutionSummary = some "Unit replaced") :=
  ⟨(resolve_requires_summary fbWorkingEx rfl "staff1" none "h4" 9).1,
   (resolve_requires_summary fbWorkingEx rfl "staff1" none "h4" 9).2 "Unit replaced"⟩

theorem computeResolution_foldl (records : List AnalyticsRecord) (a : ℚ) (n : Nat) :
    records.foldl
      (fun (p : ℚ × Nat) r =>
        if r.status = FeedbackStatus.resolved then (p.1 + resolutionHours r, p.2 + 1) else p)
      (a, n) =
    (a + ((records.filter (fun r => r.status = FeedbackStatus.resolved)).map resolutionHours).sum,
     n + (records.filter (fun r => r.status = FeedbackStatus.resolved)).length) := by
  induction records generalizing a n with
  | nil => simp
  | cons r t ih =>
    by_cases hr : r.status = FeedbackStatus.resolved
    · simp [hr, ih, List.filter]
      constructor
      · ring
      · omega
    · simp [hr, ih, List.filter]

theorem computeResolution_eq (records : List AnalyticsRecord) :
    computeResolution records =
      { resolved_count := (records.filter (fun r => r.status = FeedbackStatus.resolved)).length
        average_resolution_hours :=
          if (records.filter (fun r => r.status = FeedbackStatus.resolved)).length = 0 then 0
          else ((records.filter (fun r => r.status = FeedbackStatus.resolved)).map resolutionHours).sum /
            (((records.filter (fun r => r.status = FeedbackStatus.resolved)).length : ℚ)) } := by
  rw [computeResolution]
  rw [computeResolution_foldl records 0 0]
  simp

/-- C8: the resolution statistics count exactly the currently-`resolved`
records, the reported average is the arithmetic mean, in hours, of
`resolvedAt - createdAt` over exactly that resolved subset, and appending
only `pending` or `rejected` records changes neither number. -/
theorem computeResolution_mean_over_resolved (records extra : List AnalyticsRecord)
    (hextra : ∀ r ∈ extra, r.status = .pending ∨ r.status = .rejected) :
    (computeResolution records).resolved_count =
      (records.filter (fun r => r.status = FeedbackStatus.resolved)).length ∧
    ((records.filter (fun r => r.status = FeedbackStatus.resolved)).length ≠ 0 →
      (computeResolution records).average_resolution_hours =
        ((records.filter (fun r => r.status = FeedbackStatus.resolved)).map resolutionHours).sum /
          (((records.filter (fun r => r.status = FeedbackStatus.resolved)).length : ℚ))) ∧
    computeResolution (records ++ extra) = computeResolution records := by
  have hfilter : extra.filter (fun r => r.status = FeedbackStatus.resolved) = [] := by
    rw [List.filter_eq_nil_iff]
    intro r hr
    rcases hextra r hr with h | h <;> simp [h]
  refine ⟨?_, ?_, ?_⟩
  · rw [computeResolution_eq]
  · intro hn
    rw [computeResolution_eq]
    simp [hn]
  · rw [computeResolution_eq, computeResolution_eq records,
      List.filter_append, hfilter, List.append_nil]

/-- Witness for C8 on a concrete set: one record resolved after 2 hours and
one after 4 hours average to 3 hours, and appending a pending and a
rejected record changes nothing. -/
theorem computeResolution_mean_over_resolved_witness :
    (computeResolution
        [{ status := .resolved, createdAt := 0, resolvedAt := 7200000 },
         { status := .resolved, createdAt := 3600000, resolvedAt := 18000000 }]).resolved_count = 2 ∧
    (computeResolution
        [{ status := .resolved, createdAt := 0, resolvedAt := 7200000 },
         { status := .resolved, createdAt := 3600000, resolvedAt := 18000000 }]).average_resolution_hours = 3 ∧
    computeResolution
        ([{ status := .resolved, createdAt := 0, resolvedAt := 7200000 },
          { status := .resolved, createdAt := 3600000, resolvedAt := 18000000 }] ++
         [{ status := .pending, createdAt := 0, resolvedAt := 0 },
          { status := .rejected, createdAt := 0, resolvedAt := 0 }]) =
      computeResolution
        [{ status := .resolved, createdAt := 0, resolvedAt := 7200000 },
         { status := .resolved, createdAt := 3600000, resolvedAt := 18000000 }] := by
  have h := computeResolution_mean_over_resolved
    [{ status := .resolved, createdAt := 0, resolvedAt := 7200000 },
     { status := .resolved, createdAt := 3600000, resolvedAt := 18000000 }]
    [{ status := .pending, createdAt := 0, resolvedAt := 0 },
     { status := .rejected, createdAt := 0, resolvedAt := 0 }]
    (by decide)
  refine ⟨?_, ?_, h.2.2⟩
  · rw [h.1]
    rfl
  · rw [h.2.1 (by decide)]
    norm_num [resolutionHours, List.filter]


theorem mem_scoredCandidates (allFeedbacks : List Feedback)
    (description subject category : String) (t : FeedbackType) (p : Feedback × Nat) :
    p ∈ scoredCandidates allFeedbacks description subject category t ↔
      (p.1 ∈ allFeedbacks ∧ p.1.type = t ∧ p.1.category = category ∧
        p.2 = matchCount (similarityKeywords description subject) p.1 ∧ 2 ≤ p.2) := by
  obtain ⟨f, n⟩ := p
  unfold scoredCandidates
  constructor
  · intro hmem
    rcases List.mem_filter.mp hmem with ⟨hmap, hscore⟩
    rcases List.mem_map.mp hmap with ⟨g, hg, heq⟩
    rcases List.mem_filter.mp hg with ⟨hga, hprops⟩
    rw [decide_eq_true_eq] at hprops
    rw [decide_eq_true_eq] at hscore
    cases heq
    exact ⟨hga, hprops.1, hprops.2, rfl, hscore⟩
  · rintro ⟨hmem, ht, hc, hscore, hge⟩
    dsimp only at hscore hge
    subst hscore
    refine List.mem_filter.mpr ⟨List.mem_map.mpr ⟨f, List.mem_filter.mpr ⟨hmem, ?_⟩, rfl⟩, ?_⟩
    · rw [decide_eq_true_eq]
      exact ⟨ht, hc⟩
    · rw [decide_eq_true_eq]
      exact hge

/-- C4 (amended): the advisory pipeline of `SimilarityDetector` — every
surfaced record is an existing record of the draft's type and category with
keyword score at least 2, at most 3 records are surfaced, their scores are
in descending order, a draft below the minimum length (description shorter
than 20 and subject shorter than 10) surfaces nothing, and for a draft
meeting the minimum length every qualifying record is surfaced whenever at
most 3 records qualify — so two qualifying drafts of the same type and
category whose records score at least 2 against each other appear in each
other's advisory when at most 3 records qualify. -/
theorem similarIssues_pipeline_spec (allFeedbacks : List Feedback)
    (description subject category : String) (t : FeedbackType) :
    (∀ f ∈ similarIssues allFeedbacks description subject category t,
      f ∈ allFeedbacks ∧ f.type = t ∧ f.category = category ∧
      2 ≤ matchCount (similarityKeywords description subject) f) ∧
    (similarIssues allFeedbacks description subject category t).length ≤ 3 ∧
    List.Pairwise (fun a b => b ≤ a)
      ((similarIssues allFeedbacks description subject category t).map
        (matchCount (similarityKeywords description subject))) ∧
    (description.length < 20 ∧ subject.length < 10 →
      similarIssues allFeedbacks description subject category t = []) ∧
    (¬ (description.length < 20 ∧ subject.length < 10) →
      (scoredCandidates allFeedbacks description subject category t).length ≤ 3 →
      ∀ f ∈ allFeedbacks, f.type = t → f.category = category →
        2 ≤ matchCount (similarityKeywords description subject) f →
        f ∈ similarIssues allFeedbacks description subject category t) := by
  by_cases hgate : description.length < 20 ∧ subject.length < 10
  · refine ⟨?_, ?_, ?_, fun _ => by simp [similarIssues, hgate], fun h => absurd hgate h⟩
    · intro f hf
      simp [similarIssues, hgate] at hf
    · simp [similarIssues, hgate]
    · simp [similarIssues, hgate]
  · have hsim : similarIssues allFeedbacks description subject category t =
        (((scoredCandidates allFeedbacks description subject category t).insertionSort
          (fun a b => b.2 ≤ a.2)).take 3).map Prod.fst := by
      simp [similarIssues, hgate]
    have hperm : ((scoredCandidates allFeedbacks description subject category t).insertionSort
        (fun a b => b.2 ≤ a.2)).Perm
        (scoredCandidates allFeedbacks description subject category t) :=
      List.perm_insertionSort _ _
    have htake : ∀ p, p ∈ ((scoredCandidates allFeedbacks description subject category t).insertionSort
        (fun a b => b.2 ≤ a.2)).take 3 →
        p ∈ scoredCandidates allFeedbacks description subject category t := by
      intro p hp
      exact hperm.mem_iff.mp ((List.take_sublist 3 _).subset hp)
    refine ⟨?_, ?_, ?_, fun h => absurd h hgate, ?_⟩
    · intro f hf
      rw [hsim] at hf
      rcases List.mem_map.mp hf with ⟨p, hp, rfl⟩
      have := (mem_scoredCandidates allFeedbacks description subject category t p).mp (htake p hp)
      exact ⟨this.1, this.2.1, this.2.2.1, this.2.2.2.2.trans_eq this.2.2.2.1⟩
    · rw [hsim, List.length_map, List.length_take]
      exact min_le_left _ _
    · rw [hsim, List.map_map]
      rw [List.pairwise_map]
      have hsorted : List.Pairwise (fun a b : Feedback × Nat => b.2 ≤ a.2)
          ((scoredCandidates allFeedbacks description subject category t).insertionSort
            (fun a b => b.2 ≤ a.2)) := by
        haveI htot : IsTotal (Feedback × Nat) (fun a b => b.2 ≤ a.2) :=
          ⟨fun a b => le_total b.2 a.2⟩
        haveI htr : IsTrans (Feedback × Nat) (fun a b => b.2 ≤ a.2) :=
          ⟨fun _ _ _ hab hbc => le_trans hbc hab⟩
        exact List.sorted_insertionSort _ _
      have hpw := hsorted.sublist (List.take_sublist 3 _)
      refine hpw.imp_of_mem ?_
      intro p q hp hq hle
      have hp2 := (mem_scoredCandidates allFeedbacks description subject category t p).mp (htake p hp)
      have hq2 := (mem_scoredCandidates allFeedbacks description subject category t q).mp (htake q hq)
      simpa [Function.comp, hp2.2.2.2.1.symm, hq2.2.2.2.1.symm] using hle
    · intro _ hlen f hfa hft hfc hsc
      have hpS : (f, matchCount (similarityKeywords description subject) f) ∈
          scoredCandidates allFeedbacks description subject category t :=
        (mem_scoredCandidates allFeedbacks description subject category t _).mpr
          ⟨hfa, hft, hfc, rfl, hsc⟩
      have htk : ((scoredCandidates allFeedbacks description subject category t).insertionSort
          (fun a b => b.2 ≤ a.2)).take 3 =
          (scoredCandidates allFeedbacks description subject category t).insertionSort
            (fun a b => b.2 ≤ a.2) :=
        List.take_of_length_le (by rw [hperm.length_eq]; exact hlen)
      rw [hsim, htk]
      exact List.mem_map.mpr ⟨_, hperm.mem_iff.mpr hpS, rfl⟩

/-- Witness for C4 (amended) at a concrete store: a long draft about campus
wifi surfaces the matching record of its type and category. -/
theorem similarIssues_pipeline_spec_witness :
    wifiRecordEx ∈ similarIssues [wifiRecordEx]
      "campus wifi keeps dropping in the evenings" "" "Internet" .academic :=
  (similarIssues_pipeline_spec [wifiRecordEx]
      "campus wifi keeps dropping in the evenings" "" "Internet" .academic).2.2.2.2
    (by decide) (by decide) wifiRecordEx (by decide) rfl rfl (by decide)

/-- Counterexample to C4 as stated: a draft below the minimum length
(description shorter than 20 characters and subject shorter than 10) shares
the two keywords `campus` and `wifi` with an existing record of the same
type and category — so the record scores 2 and the claim requires it to be
surfaced — yet the advisory is empty. -/
theorem similarIssues_short_draft_not_surfaced :
    2 ≤ matchCount (similarityKeywords "campus wifi" "") wifiRecordEx ∧
    wifiRecordEx.type = .academic ∧
    wifiRecordEx.category = "Internet" ∧
    similarIssues [wifiRecordEx] "campus wifi" "" "Internet" .academic = [] :=
  ⟨by decide, rfl, rfl, by decide⟩

end PAUVox
